import Mathlib

/-!
Verification of the skeleton-challenge repository: test-data builders
(`tests/builders.py`), health endpoints
(`src/challenge/presentation/api/v1/health.py`) and the application
factory's exception handlers (`src/pindrop_challenge/presentation/main.py`).

Two models are developed:

* a pure value model (`Builders` namespace) for claims about the *values*
  builders produce: a Python dict is an association list with unique keys,
  `d[k] = v` replaces in place or appends at the end, as in CPython;
* a heap model (`HeapModel` namespace) for claims about *aliasing*:
  `build()` is `self._data.copy()`, a shallow copy, so nested dicts are
  shared between the builder and its snapshots.
-/

namespace Builders

/-- Pure model of a Python value as it appears in the builders: strings,
ints, bools, floats (the only float in the source is the literal `0.1`,
modelled as a rational), `None`, dicts, and `undef` (used only by the heap
model's fuel-bounded resolution). -/
inductive Value where
  | str (s : String)
  | int (n : Int)
  | bool (b : Bool)
  | rat (q : Rat)
  | vnone
  | dict (entries : List (String × Value))
  | undef

/-- A Python dict with string keys: an association list with unique keys. -/
abbrev Dict := List (String × Value)

/-- CPython semantics of `d[k] = v` on a dict without duplicate keys:
replace the value in place if the key is present, append at the end
otherwise (insertion order is preserved). -/
def dictSet : Dict → String → Value → Dict
  | [], k, v => [(k, v)]
  | (k0, v0) :: rest, k, v =>
      if k0 == k then (k, v) :: rest else (k0, v0) :: dictSet rest k v

/-- CPython semantics of `d.get(k)` / `d[k]`: first binding of `k`. -/
def dlookup : Dict → String → Option Value
  | [], _ => none
  | (k0, v0) :: rest, k => if k0 == k then some v0 else dlookup rest k

/-- `Builder.build`: `return self._data.copy()`. On pure values a top-level
copy is the identity; the copy's shallowness is treated in `HeapModel`. -/
def build (d : Dict) : Dict := d

/-- `Builder.build_many(count, modifier)`: a loop over `range(count)`, each
iteration appending either `self.build()` or `modifier(self.build(), i)` to
the result list. The modifier's return value (an arbitrary Python value)
replaces the snapshot in the output. -/
def buildMany (d : Dict) (count : Nat)
    (modifier : Option (Dict → Nat → Value)) : List Value :=
  (List.range count).foldl (fun results i =>
    let data := build d
    let out := match modifier with
      | some f => f data i
      | none => Value.dict data
    results ++ [out]) []

/-- Observation of one field of a resolved dict value. -/
def vfield : Value → String → Option Value
  | Value.dict d, k => dlookup d k
  | _, _ => none

end Builders

namespace HeapModel

open Builders (Value)

/-- A Python value held in a dict slot: either an immutable primitive or a
reference to a heap-allocated dict (the only mutable objects the builders
use are dicts). -/
inductive PyVal where
  | str (s : String)
  | int (n : Int)
  | bool (b : Bool)
  | rat (q : Rat)
  | pynone
  | ref (a : Nat)
deriving DecidableEq

/-- A heap dict object: entries in insertion order. -/
abbrev Obj := List (String × PyVal)

/-- The heap: address `a` is the object at index `a`; allocation appends. -/
abbrev Heap := List Obj

def heapGet : Heap → Nat → Obj
  | [], _ => []
  | o :: _, 0 => o
  | _ :: h, a + 1 => heapGet h a

def heapSet : Heap → Nat → Obj → Heap
  | [], _, _ => []
  | _ :: h, 0, o => o :: h
  | x :: h, a + 1, o => x :: heapSet h a o

def alloc (h : Heap) (o : Obj) : Heap × Nat := (h ++ [o], h.length)

/-- CPython `obj[k] = v` on a dict object without duplicate keys. -/
def objSet : Obj → String → PyVal → Obj
  | [], k, v => [(k, v)]
  | (k0, v0) :: rest, k, v =>
      if k0 == k then (k, v) :: rest else (k0, v0) :: objSet rest k v

def objGet : Obj → String → Option PyVal
  | [], _ => none
  | (k0, v0) :: rest, k => if k0 == k then some v0 else objGet rest k

/-- `Builder.with_field(name, value)`: `self._data[name] = value`, a
top-level rebinding of one field of the builder's own dict object. All
specialized setters of the form `self._data[k] = v` have this shape. -/
def withField (h : Heap) (b : Nat) (k : String) (v : PyVal) : Heap :=
  heapSet h b (objSet (heapGet h b) k v)

/-- `Builder.build()`: `return self._data.copy()` — allocates a fresh dict
object with the same entry list; nested `ref`s are shared (shallow copy). -/
def build (h : Heap) (b : Nat) : Heap × Nat := alloc h (heapGet h b)

/-- `RequestBuilder.__init__`: the `_data` dict literal with nested dict
literals for `headers`, `body` and `query_params`, each a distinct heap
object. -/
def requestBuilderInit (h : Heap) : Heap × Nat :=
  let hdrs := alloc h [("Content-Type", PyVal.str "application/json")]
  let body := alloc hdrs.1 []
  let qp := alloc body.1 []
  alloc qp.1 [("method", PyVal.str "POST"),
              ("endpoint", PyVal.str "/api/v1/test"),
              ("headers", PyVal.ref hdrs.2),
              ("body", PyVal.ref body.2),
              ("query_params", PyVal.ref qp.2)]

/-- `RequestBuilder.with_header(key, value)`:
`self._data["headers"][key] = value` mutates the shared headers dict object
in place. -/
def withHeader (h : Heap) (b : Nat) (k v : String) : Heap :=
  match objGet (heapGet h b) "headers" with
  | some (PyVal.ref a) => heapSet h a (objSet (heapGet h a) k (PyVal.str v))
  | _ => h

/-- `ConfigBuilder.__init__`: the `_data` dict literal with a nested dict
literal for `features`. -/
def configBuilderInit (h : Heap) : Heap × Nat :=
  let feats := alloc h []
  alloc feats.1 [("environment", PyVal.str "test"),
                 ("debug", PyVal.bool true),
                 ("log_level", PyVal.str "DEBUG"),
                 ("database_url", PyVal.str "sqlite:///:memory:"),
                 ("cache_enabled", PyVal.bool false),
                 ("features", PyVal.ref feats.2)]

/-- `ConfigBuilder.with_feature(name, enabled)`:
`self._data["features"][name] = enabled` mutates the shared features dict
object in place. -/
def withFeature (h : Heap) (b : Nat) (k : String) (v : Bool) : Heap :=
  match objGet (heapGet h b) "features" with
  | some (PyVal.ref a) => heapSet h a (objSet (heapGet h a) k (PyVal.bool v))
  | _ => h

/-- Fuel-bounded observation of a heap value as a pure value tree: what a
caller sees when reading a dict and everything reachable from it. -/
def resolve : Nat → Heap → PyVal → Value
  | 0, _, _ => Value.undef
  | _ + 1, _, PyVal.str s => Value.str s
  | _ + 1, _, PyVal.int n => Value.int n
  | _ + 1, _, PyVal.bool b => Value.bool b
  | _ + 1, _, PyVal.rat q => Value.rat q
  | _ + 1, _, PyVal.pynone => Value.vnone
  | fuel + 1, h, PyVal.ref a =>
      Value.dict ((heapGet h a).map (fun kv => (kv.1, resolve fuel h kv.2)))

/-- `touches fuel h v t`: within `fuel` dereference levels, resolving `v`
in `h` reads heap address `t`. -/
def touches : Nat → Heap → PyVal → Nat → Bool
  | 0, _, _, _ => false
  | fuel + 1, h, PyVal.ref a, t =>
      a == t || (heapGet h a).any (fun kv => touches fuel h kv.2 t)
  | _ + 1, _, _, _ => false

/-- Heap and builder address after `b = request()` on an empty heap. -/
def cxReq : Heap × Nat := requestBuilderInit []

/-- Heap and snapshot address after `s = b.build()`. -/
def cxSnap : Heap × Nat := build cxReq.1 cxReq.2

/-- Heap after the subsequent `b.with_header("X-Custom", "1")`. -/
def cxMut : Heap := withHeader cxSnap.1 cxReq.2 "X-Custom" "1"

end HeapModel

namespace Builders

namespace EntityBuilder

/-- `EntityBuilder.__init__`: the default `_data` mapping. The random UUID
and the two separate `datetime.now(timezone.utc).isoformat()` readings are
runtime inputs, taken as parameters; everything else is literal. -/
def init (id createdAt updatedAt : String) : Dict :=
  [("id", Value.str id),
   ("name", Value.str "Test Entity"),
   ("description", Value.str "Test entity description"),
   ("created_at", Value.str createdAt),
   ("updated_at", Value.str updatedAt),
   ("is_active", Value.bool true),
   ("metadata", Value.dict [])]

end EntityBuilder

namespace ResponseBuilder

/-- `ResponseBuilder.__init__`: the default `_data` mapping; `0.1` is the
float literal `elapsed`. -/
def init : Dict :=
  [("status_code", Value.int 200),
   ("headers", Value.dict [("Content-Type", Value.str "application/json")]),
   ("body", Value.dict []),
   ("elapsed", Value.rat (1 / 10))]

/-- `ResponseBuilder.success(data)`: sets `status_code` to 200 then `body`
to `{"success": True, "data": data}`. -/
def success (d : Dict) (data : Value) : Dict :=
  dictSet (dictSet d "status_code" (Value.int 200)) "body"
    (Value.dict [("success", Value.bool true), ("data", data)])

/-- `ResponseBuilder.error(message, status_code=400)`. -/
def error (d : Dict) (message : String) (statusCode : Int) : Dict :=
  dictSet (dictSet d "status_code" (Value.int statusCode)) "body"
    (Value.dict [("success", Value.bool false), ("error", Value.str message)])

end ResponseBuilder

namespace ConfigBuilder

/-- `ConfigBuilder.__init__`: the default `_data` mapping. -/
def init : Dict :=
  [("environment", Value.str "test"),
   ("debug", Value.bool true),
   ("log_level", Value.str "DEBUG"),
   ("database_url", Value.str "sqlite:///:memory:"),
   ("cache_enabled", Value.bool false),
   ("features", Value.dict [])]

/-- `ConfigBuilder.production()`: assigns environment, debug, log_level. -/
def production (d : Dict) : Dict :=
  dictSet (dictSet (dictSet d "environment" (Value.str "production"))
    "debug" (Value.bool false)) "log_level" (Value.str "INFO")

/-- `ConfigBuilder.development()`: assigns environment, debug, log_level. -/
def development (d : Dict) : Dict :=
  dictSet (dictSet (dictSet d "environment" (Value.str "development"))
    "debug" (Value.bool true)) "log_level" (Value.str "DEBUG")

end ConfigBuilder

namespace ErrorBuilder

/-- `ErrorBuilder.__init__`: the default `_data` mapping; the `now()`
timestamp reading is a runtime input, taken as a parameter. -/
def init (timestamp : String) : Dict :=
  [("type", Value.str "GenericError"),
   ("message", Value.str "An error occurred"),
   ("code", Value.str "ERR_GENERIC"),
   ("details", Value.dict []),
   ("timestamp", Value.str timestamp)]

/-- `ErrorBuilder.not_found(resource)`: assigns type, code, message (the
f-string `f"{resource} not found"`) and details, in source order. -/
def not_found (d : Dict) (resource : String) : Dict :=
  dictSet (dictSet (dictSet (dictSet d
    "type" (Value.str "NotFoundError"))
    "code" (Value.str "ERR_NOT_FOUND"))
    "message" (Value.str (resource ++ " not found")))
    "details" (Value.dict [("resource", Value.str resource)])

end ErrorBuilder

end Builders

namespace Health

/-- `__version__` in `src/challenge/__init__.py`. -/
def appVersion : String := "0.1.0"

/-- Response model of `GET /health` (`DetailedHealthResponse`). Timestamps
are abstract instants (`Nat`). -/
structure DetailedHealthResponse where
  status : String
  version : String
  timestamp : Nat
  environment : Option String
  system : List (String × String)
  checks : List (String × String)

/-- Response model of `GET /health/live` (`LivenessResponse`). -/
structure LivenessResponse where
  alive : Bool
  timestamp : Nat

/-- Response model of `GET /health/ready` (`ReadinessResponse`). -/
structure ReadinessResponse where
  ready : Bool
  checks : List (String × Bool)
  timestamp : Nat

/-- `health_check` handler: the route decorator fixes the HTTP status at
200 (`status.HTTP_200_OK`) and the handler never overrides it. Runtime
introspection (`sys.version`, `platform.platform()`, `platform.machine()`)
and the clock reading are parameters. -/
def health_check (pythonVersion plat arch : String) (now : Nat) :
    Nat × DetailedHealthResponse :=
  let checks := [("application", "healthy")]
  (200,
   { status := "healthy",
     version := appVersion,
     timestamp := now,
     environment := some "development",
     system := [("python_version", pythonVersion),
                ("platform", plat),
                ("architecture", arch)],
     checks := checks })

/-- `liveness_check` handler. -/
def liveness_check (now : Nat) : Nat × LivenessResponse :=
  (200, { alive := true, timestamp := now })

/-- `readiness_check` handler: `checks = {"application": True}`,
`ready = all(checks.values())`; the route decorator fixes the HTTP status
at 200 and the handler returns the model unconditionally. -/
def readiness_check (now : Nat) : Nat × ReadinessResponse :=
  let checks := [("application", true)]
  let ready := (checks.map Prod.snd).all id
  (200, { ready := ready, checks := checks, timestamp := now })

/-- Lookup in a string-keyed checks mapping. -/
def clookup {α : Type} : List (String × α) → String → Option α
  | [], _ => none
  | (k0, v0) :: rest, k => if k0 == k then some v0 else clookup rest k

/-- Which of the three handlers a call hits. -/
inductive CallKind where
  | health
  | live
  | ready

/-- The timestamp field of the response a call produces, given the clock
reading `t` the handler's `datetime.now(timezone.utc)` returns. -/
def responseTimestamp (pv pl ar : String) : CallKind → Nat → Nat
  | CallKind.health, t => (health_check pv pl ar t).2.timestamp
  | CallKind.live, t => (liveness_check t).2.timestamp
  | CallKind.ready, t => (readiness_check t).2.timestamp

/-- Timestamps of the responses of a call sequence, in call order; each
call carries the clock value its handler reads. -/
def traceTimestamps (pv pl ar : String) (calls : List (CallKind × Nat)) :
    List Nat :=
  calls.map (fun c => responseTimestamp pv pl ar c.1 c.2)

end Health

namespace MainApp

open Builders (Value)

/-- An uncaught Python exception, abstracted as its type name and message:
all the data `unhandled_exception_handler` receives and could leak. -/
structure Exc where
  excType : String
  message : String

/-- `unhandled_exception_handler` in
`src/pindrop_challenge/presentation/main.py`: logs the exception and
returns a `JSONResponse` with status 500 and a fixed body; nothing from
`exc` flows into the response. -/
def unhandled_exception_handler (_exc : Exc) :
    Nat × List (String × Value) :=
  (500, [("error", Value.str "internal_error"),
         ("message", Value.str "An unexpected error occurred")])

end MainApp

open Builders HeapModel Health MainApp

namespace Builders

theorem dlookup_dictSet_self (d : Dict) (k : String) (v : Value) :
    dlookup (dictSet d k v) k = some v := by
  induction d with
  | nil => simp [dictSet, dlookup]
  | cons kv rest ih =>
      obtain ⟨k0, v0⟩ := kv
      by_cases h : k0 = k
      · simp [dictSet, dlookup, h]
      · simp [dictSet, dlookup, h, ih]

theorem dlookup_dictSet_ne (d : Dict) (k k' : String) (v : Value)
    (hne : k' ≠ k) : dlookup (dictSet d k v) k' = dlookup d k' := by
  induction d with
  | nil => simp [dictSet, dlookup, Ne.symm hne]
  | cons kv rest ih =>
      obtain ⟨k0, v0⟩ := kv
      by_cases h : k0 = k
      · subst h
        simp [dictSet, dlookup, Ne.symm hne]
      · simp [dictSet, dlookup, h, ih]

theorem foldl_append_singleton (g : Nat → Value) (l : List Nat) :
    ∀ init : List Value,
      l.foldl (fun rs i => rs ++ [g i]) init = init ++ l.map g := by
  induction l with
  | nil => intro init; simp
  | cons x xs ih => intro init; simp [List.foldl_cons, ih]

theorem buildMany_eq_map (d : Dict) (n : Nat)
    (m : Option (Dict → Nat → Value)) :
    buildMany d n m = (List.range n).map (fun i =>
      match m with
      | some f => f (build d) i
      | none => Value.dict (build d)) := by
  unfold buildMany
  exact foldl_append_singleton _ _ []

theorem buildMany_length (d : Dict) (n : Nat)
    (m : Option (Dict → Nat → Value)) : (buildMany d n m).length = n := by
  simp [buildMany_eq_map]

theorem buildMany_none_replicate (d : Dict) (n : Nat) :
    buildMany d n none = List.replicate n (Value.dict (build d)) := by
  rw [buildMany_eq_map]
  rw [List.map_const']
  simp

theorem buildMany_getElem (d : Dict) (n : Nat) (f : Dict → Nat → Value)
    (i : Nat) (hi : i < n) :
    (buildMany d n (some f))[i]? = some (f (build d) i) := by
  rw [buildMany_eq_map]
  rw [List.getElem?_map]
  simp [List.getElem?_range hi]

end Builders

namespace HeapModel

theorem heapGet_heapSet_ne (h : Heap) (t : Nat) (o : Obj) :
    ∀ a, a ≠ t → heapGet (heapSet h t o) a = heapGet h a := by
  induction h generalizing t with
  | nil => intro a _; rfl
  | cons x rest ih =>
      intro a hne
      cases t with
      | zero =>
          cases a with
          | zero => exact absurd rfl hne
          | succ a' => rfl
      | succ t' =>
          cases a with
          | zero => rfl
          | succ a' =>
              simpa [heapSet, heapGet] using
                ih t' a' (fun e => hne (by rw [e]))

theorem heapGet_append_lt (h : Heap) (o : Obj) :
    ∀ a, a < h.length → heapGet (h ++ [o]) a = heapGet h a := by
  induction h with
  | nil => intro a ha; exact absurd ha (by simp)
  | cons x rest ih =>
      intro a ha
      cases a with
      | zero => rfl
      | succ a' =>
          simpa [heapGet] using ih a' (by simpa using ha)

theorem heapGet_append_self (h : Heap) (o : Obj) :
    heapGet (h ++ [o]) h.length = o := by
  induction h with
  | nil => rfl
  | cons x rest ih => simpa [heapGet] using ih

/-- Frame property of observation: if two heaps agree everywhere except at
address `t`, any value whose resolution never reads `t` resolves to the
same tree in both. -/
theorem resolve_frame (t : Nat) (h h' : Heap)
    (hag : ∀ a, a ≠ t → heapGet h a = heapGet h' a) :
    ∀ fuel, ∀ v, touches fuel h v t = false →
      resolve fuel h v = resolve fuel h' v := by
  intro fuel
  induction fuel with
  | zero => intro v _; rfl
  | succ f ih =>
      intro v hv
      cases v with
      | str s => rfl
      | int n => rfl
      | bool b => rfl
      | rat q => rfl
      | pynone => rfl
      | ref a =>
          simp only [touches, Bool.or_eq_false_iff] at hv
          obtain ⟨hat, hents⟩ := hv
          have hane : a ≠ t := by
            intro e; rw [e] at hat; simp at hat
          have hobj : heapGet h a = heapGet h' a := hag a hane
          simp only [resolve, ← hobj]
          rw [List.any_eq_false] at hents
          have : ∀ kv ∈ heapGet h a,
              resolve f h kv.2 = resolve f h' kv.2 := by
            intro kv hkv
            exact ih kv.2 (by simpa using hents kv hkv)
          exact congrArg Value.dict (List.map_congr_left
            (fun kv hkv => by rw [this kv hkv]))

/-- Updating object `t` does not change how any dict at `a ≠ t` resolves,
as long as resolution of the entries of `a` never reads `t`. -/
theorem resolve_heapSet_untouched (h : Heap) (t : Nat) (o : Obj) (a : Nat)
    (hat : a ≠ t) (fuel : Nat)
    (hno : (heapGet h a).any (fun kv => touches fuel h kv.2 t) = false) :
    resolve (fuel + 1) (heapSet h t o) (PyVal.ref a)
      = resolve (fuel + 1) h (PyVal.ref a) := by
  simp only [resolve]
  rw [heapGet_heapSet_ne h t o a hat]
  refine congrArg Value.dict (List.map_congr_left ?_)
  intro kv hkv
  have hkvt : touches fuel h kv.2 t = false := by
    rw [List.any_eq_false] at hno
    simpa using hno kv hkv
  have hfr := resolve_frame t h (heapSet h t o)
    (fun a2 ha2 => (heapGet_heapSet_ne h t o a2 ha2).symm) fuel kv.2 hkvt
  rw [hfr]

end HeapModel

/-- C2: every call to `readiness_check` (GET /health/ready) returns HTTP
status 200; the body's `checks` maps "application" to `true`; `ready`
equals the AND of all values of `checks`; with the fixed check set
`ready` is `true`, and the HTTP status is the constant 200 independent of
the computed `ready` value. -/
theorem C2_readiness_contract (now : Nat) :
    (readiness_check now).1 = 200 ∧
    clookup (readiness_check now).2.checks "application" = some true ∧
    (readiness_check now).2.ready
      = ((readiness_check now).2.checks.map Prod.snd).all id ∧
    (readiness_check now).2.ready = true :=
  ⟨rfl, rfl, rfl, rfl⟩

/-- C4: every call to `health_check` (GET /health) returns HTTP 200 with
status the literal "healthy", version the application version, the current
clock reading as timestamp, a system mapping with keys python_version,
platform and architecture, and checks equal to {"application": "healthy"}. -/
theorem C4_health_contract (pv pl ar : String) (now : Nat) :
    (health_check pv pl ar now).1 = 200 ∧
    (health_check pv pl ar now).2.status = "healthy" ∧
    (health_check pv pl ar now).2.version = appVersion ∧
    (health_check pv pl ar now).2.timestamp = now ∧
    clookup (health_check pv pl ar now).2.system "python_version" = some pv ∧
    clookup (health_check pv pl ar now).2.system "platform" = some pl ∧
    clookup (health_check pv pl ar now).2.system "architecture" = some ar ∧
    (health_check pv pl ar now).2.checks = [("application", "healthy")] :=
  ⟨rfl, rfl, rfl, rfl, rfl, rfl, rfl, rfl⟩

/-- C5: the catch-all exception handler returns HTTP 500 with the fixed
body {"error": "internal_error", "message": "An unexpected error
occurred"}, and the response is identical for any two exceptions: no
content of the exception flows into the response. -/
theorem C5_exception_opacity (e1 e2 : Exc) :
    unhandled_exception_handler e1 =
      (500, [("error", Value.str "internal_error"),
             ("message", Value.str "An unexpected error occurred")]) ∧
    unhandled_exception_handler e1 = unhandled_exception_handler e2 :=
  ⟨rfl, rfl⟩

/-- C8: across any sequence of calls to the three health handlers, the
response timestamps in call order are monotonically non-decreasing,
because each handler copies its clock reading unchanged into the response
(so non-decreasing clock readings give non-decreasing response
timestamps). -/
theorem C8_timestamps_monotone (pv pl ar : String)
    (calls : List (CallKind × Nat))
    (hclock : List.Chain' (· ≤ ·) (calls.map Prod.snd)) :
    List.Chain' (· ≤ ·) (traceTimestamps pv pl ar calls) := by
  have h : traceTimestamps pv pl ar calls = calls.map Prod.snd := by
    unfold traceTimestamps
    apply List.map_congr_left
    intro c _
    obtain ⟨kind, t⟩ := c
    cases kind <;> rfl
  rw [h]
  exact hclock

/-- Witness for C8 at a concrete three-call trace. -/
theorem C8_timestamps_monotone_witness :
    List.Chain' (· ≤ ·) (traceTimestamps "py" "linux" "arm64"
      [(CallKind.health, 3), (CallKind.live, 5), (CallKind.ready, 5)]) :=
  C8_timestamps_monotone "py" "linux" "arm64"
    [(CallKind.health, 3), (CallKind.live, 5), (CallKind.ready, 5)]
    (by simp [List.chain'_cons])

/-- C6: `response().success(data={"id": "123"}).build()` equals exactly
the documented mapping (status_code 200, JSON content-type header, body
{"success": true, "data": {"id": "123"}}, elapsed 0.1); and for every data
value and every prior builder state, `success(data)` sets status_code to
200 and body to {"success": true, "data": data}. -/
theorem C6_response_success (d : Dict) (data : Value) :
    build (ResponseBuilder.success ResponseBuilder.init
        (Value.dict [("id", Value.str "123")])) =
      [("status_code", Value.int 200),
       ("headers", Value.dict [("Content-Type", Value.str "application/json")]),
       ("body", Value.dict [("success", Value.bool true),
                            ("data", Value.dict [("id", Value.str "123")])]),
       ("elapsed", Value.rat (1 / 10))] ∧
    dlookup (ResponseBuilder.success d data) "status_code"
      = some (Value.int 200) ∧
    dlookup (ResponseBuilder.success d data) "body"
      = some (Value.dict [("success", Value.bool true), ("data", data)]) := by
  refine ⟨rfl, ?_, ?_⟩
  · unfold ResponseBuilder.success
    rw [dlookup_dictSet_ne _ _ _ _ (by decide)]
    exact dlookup_dictSet_self ..
  · exact dlookup_dictSet_self ..

/-- C7: for every prior state and resource string, `ErrorBuilder.not_found`
(a single named operation) leaves type, code, message and details all
updated to their documented values — the composite is observed only as a
whole, never partially — and concretely
`error().not_found("Order").build()` has message "Order not found" and
code "ERR_NOT_FOUND". -/
theorem C7_error_not_found (d : Dict) (r ts : String) :
    dlookup (ErrorBuilder.not_found d r) "type"
      = some (Value.str "NotFoundError") ∧
    dlookup (ErrorBuilder.not_found d r) "code"
      = some (Value.str "ERR_NOT_FOUND") ∧
    dlookup (ErrorBuilder.not_found d r) "message"
      = some (Value.str (r ++ " not found")) ∧
    dlookup (ErrorBuilder.not_found d r) "details"
      = some (Value.dict [("resource", Value.str r)]) ∧
    dlookup (build (ErrorBuilder.not_found (ErrorBuilder.init ts) "Order"))
      "message" = some (Value.str "Order not found") ∧
    dlookup (build (ErrorBuilder.not_found (ErrorBuilder.init ts) "Order"))
      "code" = some (Value.str "ERR_NOT_FOUND") := by
  unfold ErrorBuilder.not_found
  refine ⟨?_, ?_, ?_, dlookup_dictSet_self .., rfl, rfl⟩
  · rw [dlookup_dictSet_ne _ _ _ _ (by decide),
      dlookup_dictSet_ne _ _ _ _ (by decide),
      dlookup_dictSet_ne _ _ _ _ (by decide)]
    exact dlookup_dictSet_self ..
  · rw [dlookup_dictSet_ne _ _ _ _ (by decide),
      dlookup_dictSet_ne _ _ _ _ (by decide)]
    exact dlookup_dictSet_self ..
  · rw [dlookup_dictSet_ne _ _ _ _ (by decide)]
    exact dlookup_dictSet_self ..

/-- C10: `ConfigBuilder.production()` and `development()` modify only
environment, debug and log_level: every other field of any prior state
(in particular database_url, cache_enabled and features) keeps exactly
its prior value, while the three mode fields get the fixed triple. -/
theorem C10_config_mode_frame (d : Dict) (k : String)
    (hk : k ≠ "environment" ∧ k ≠ "debug" ∧ k ≠ "log_level") :
    dlookup (ConfigBuilder.production d) k = dlookup d k ∧
    dlookup (ConfigBuilder.development d) k = dlookup d k ∧
    dlookup (ConfigBuilder.production d) "environment"
      = some (Value.str "production") ∧
    dlookup (ConfigBuilder.production d) "debug" = some (Value.bool false) ∧
    dlookup (ConfigBuilder.production d) "log_level"
      = some (Value.str "INFO") ∧
    dlookup (ConfigBuilder.development d) "environment"
      = some (Value.str "development") ∧
    dlookup (ConfigBuilder.development d) "debug"
      = some (Value.bool true) ∧
    dlookup (ConfigBuilder.development d) "log_level"
      = some (Value.str "DEBUG") := by
  obtain ⟨h1, h2, h3⟩ := hk
  unfold ConfigBuilder.production ConfigBuilder.development
  refine ⟨?_, ?_, ?_, ?_, dlookup_dictSet_self .., ?_, ?_,
    dlookup_dictSet_self ..⟩
  · rw [dlookup_dictSet_ne _ _ _ _ h3, dlookup_dictSet_ne _ _ _ _ h2,
      dlookup_dictSet_ne _ _ _ _ h1]
  · rw [dlookup_dictSet_ne _ _ _ _ h3, dlookup_dictSet_ne _ _ _ _ h2,
      dlookup_dictSet_ne _ _ _ _ h1]
  · rw [dlookup_dictSet_ne _ _ _ _ (by decide),
      dlookup_dictSet_ne _ _ _ _ (by decide)]
    exact dlookup_dictSet_self ..
  · rw [dlookup_dictSet_ne _ _ _ _ (by decide)]
    exact dlookup_dictSet_self ..
  · rw [dlookup_dictSet_ne _ _ _ _ (by decide),
      dlookup_dictSet_ne _ _ _ _ (by decide)]
    exact dlookup_dictSet_self ..
  · rw [dlookup_dictSet_ne _ _ _ _ (by decide)]
    exact dlookup_dictSet_self ..

/-- Witness for C10 at the default config state and the field
database_url. -/
theorem C10_config_mode_frame_witness :
    dlookup (ConfigBuilder.production ConfigBuilder.init) "database_url"
      = dlookup ConfigBuilder.init "database_url" ∧
    dlookup (ConfigBuilder.development ConfigBuilder.init) "database_url"
      = dlookup ConfigBuilder.init "database_url" ∧
    dlookup (ConfigBuilder.production ConfigBuilder.init) "environment"
      = some (Value.str "production") ∧
    dlookup (ConfigBuilder.production ConfigBuilder.init) "debug"
      = some (Value.bool false) ∧
    dlookup (ConfigBuilder.production ConfigBuilder.init) "log_level"
      = some (Value.str "INFO") ∧
    dlookup (ConfigBuilder.development ConfigBuilder.init) "environment"
      = some (Value.str "development") ∧
    dlookup (ConfigBuilder.development ConfigBuilder.init) "debug"
      = some (Value.bool true) ∧
    dlookup (ConfigBuilder.development ConfigBuilder.init) "log_level"
      = some (Value.str "DEBUG") :=
  C10_config_mode_frame ConfigBuilder.init "database_url"
    ⟨by decide, by decide, by decide⟩

/-- C3: `build_many(count, modifier?)` returns exactly `count` elements in
index order: with a modifier, element i is the modifier applied to a fresh
snapshot of the current state and i, for every i in [0, count); without
one, all elements are equal copies of the current state; count = 0 gives
the empty sequence. -/
theorem C3_build_many (d : Dict) (count : Nat) (f : Dict → Nat → Value) :
    (buildMany d count (some f)).length = count ∧
    (buildMany d count none).length = count ∧
    (∀ i, i < count →
      (buildMany d count (some f))[i]? = some (f (build d) i)) ∧
    buildMany d count none = List.replicate count (Value.dict (build d)) ∧
    buildMany d 0 (some f) = [] ∧
    buildMany d 0 none = [] :=
  ⟨buildMany_length d count (some f),
   buildMany_length d count none,
   fun i hi => buildMany_getElem d count f i hi,
   buildMany_none_replicate d count,
   rfl, rfl⟩

/-- Witness for C3: the spec's example modifier `(d, i) -> {**d, "index": i}`
on a one-field state, count 5, observed at index 2. -/
theorem C3_build_many_witness :
    (buildMany [("x", Value.int 1)] 5
      (some (fun dd i => Value.dict (dictSet dd "index" (Value.int i)))))[2]?
      = some (Value.dict [("x", Value.int 1), ("index", Value.int 2)]) :=
  ((C3_build_many [("x", Value.int 1)] 5
    (fun dd i => Value.dict (dictSet dd "index" (Value.int i)))).2.2.1
      2 (by decide)).trans rfl

/-- C9: `build()` is deterministic between mutations: two consecutive
`build()` calls with no intervening setter give snapshots that resolve to
the same mapping; and since `EntityBuilder`'s default id/created_at/
updated_at and `ErrorBuilder`'s default timestamp are fixed at
construction, all n snapshots of `build_many(n)` carry the same id and
the same timestamp values. -/
theorem C9_build_deterministic (h : HeapModel.Heap) (b : Nat)
    (hb : b < h.length) (id ca ua ts : String) (n : Nat) :
    (∀ fuel,
      HeapModel.resolve fuel (HeapModel.build (HeapModel.build h b).1 b).1
          (PyVal.ref (HeapModel.build h b).2)
        = HeapModel.resolve fuel (HeapModel.build (HeapModel.build h b).1 b).1
          (PyVal.ref (HeapModel.build (HeapModel.build h b).1 b).2)) ∧
    buildMany (EntityBuilder.init id ca ua) n none
      = List.replicate n (Value.dict (EntityBuilder.init id ca ua)) ∧
    dlookup (EntityBuilder.init id ca ua) "id" = some (Value.str id) ∧
    dlookup (EntityBuilder.init id ca ua) "created_at"
      = some (Value.str ca) ∧
    dlookup (EntityBuilder.init id ca ua) "updated_at"
      = some (Value.str ua) ∧
    buildMany (ErrorBuilder.init ts) n none
      = List.replicate n (Value.dict (ErrorBuilder.init ts)) ∧
    dlookup (ErrorBuilder.init ts) "timestamp" = some (Value.str ts) := by
  refine ⟨?_, buildMany_none_replicate .., rfl, rfl, rfl,
    buildMany_none_replicate .., rfl⟩
  intro fuel
  cases fuel with
  | zero => rfl
  | succ f =>
      have e3 : HeapModel.heapGet (h ++ [HeapModel.heapGet h b]) b
          = HeapModel.heapGet h b :=
        HeapModel.heapGet_append_lt h (HeapModel.heapGet h b) b hb
      simp only [HeapModel.build, HeapModel.alloc, HeapModel.resolve, e3]
      have e1 : HeapModel.heapGet
          ((h ++ [HeapModel.heapGet h b]) ++ [HeapModel.heapGet h b])
          h.length = HeapModel.heapGet h b := by
        rw [HeapModel.heapGet_append_lt (h ++ [HeapModel.heapGet h b])
          (HeapModel.heapGet h b) h.length (by simp)]
        exact HeapModel.heapGet_append_self h (HeapModel.heapGet h b)
      have e2 : HeapModel.heapGet
          ((h ++ [HeapModel.heapGet h b]) ++ [HeapModel.heapGet h b])
          (h ++ [HeapModel.heapGet h b]).length = HeapModel.heapGet h b :=
        HeapModel.heapGet_append_self (h ++ [HeapModel.heapGet h b])
          (HeapModel.heapGet h b)
      rw [e1, e2]

/-- Witness for C9 on a one-object heap and concrete defaults. -/
theorem C9_build_deterministic_witness :
    HeapModel.resolve 3
        (HeapModel.build (HeapModel.build [[("k", PyVal.int 0)]] 0).1 0).1
        (PyVal.ref (HeapModel.build [[("k", PyVal.int 0)]] 0).2)
      = HeapModel.resolve 3
        (HeapModel.build (HeapModel.build [[("k", PyVal.int 0)]] 0).1 0).1
        (PyVal.ref
          (HeapModel.build (HeapModel.build [[("k", PyVal.int 0)]] 0).1 0).2) ∧
    dlookup (EntityBuilder.init "u1" "t1" "t2") "id"
      = some (Value.str "u1") ∧
    buildMany (ErrorBuilder.init "t3") 2 none
      = List.replicate 2 (Value.dict (ErrorBuilder.init "t3")) :=
  ⟨(C9_build_deterministic [[("k", PyVal.int 0)]] 0 (by decide)
      "u1" "t1" "t2" "t3" 2).1 3,
   (C9_build_deterministic [[("k", PyVal.int 0)]] 0 (by decide)
      "u1" "t1" "t2" "t3" 2).2.2.1,
   (C9_build_deterministic [[("k", PyVal.int 0)]] 0 (by decide)
      "u1" "t1" "t2" "t3" 2).2.2.2.2.2.1⟩

/-- C1 (amended): `build()` copies only the top level. After a snapshot,
rebinding a top-level field of the builder (`with_field`, and every
specialized setter of the form `self._data[k] = v`) leaves the snapshot's
observable value unchanged, and rebinding a top-level field of the
snapshot leaves the builder's observable value unchanged — provided
resolution of the builder's entries never reaches the mutated dict itself.
Nested mappings (headers, features) are shared between builder and
snapshot, so in-place nested mutation (`with_header`, `with_feature`, or
caller mutation of a nested mapping) does propagate both ways: the
original claim fails there (see the counterexample). -/
theorem C1_top_level_independence (h : HeapModel.Heap) (b : Nat)
    (k k2 : String) (v v2 : PyVal) (fuel : Nat)
    (hb : b < h.length)
    (hnoB : (HeapModel.heapGet h b).any
      (fun kv => HeapModel.touches fuel (HeapModel.build h b).1 kv.2 b)
      = false)
    (hnoS : (HeapModel.heapGet h b).any
      (fun kv => HeapModel.touches fuel (HeapModel.build h b).1 kv.2
        (HeapModel.build h b).2) = false) :
    HeapModel.resolve (fuel + 1)
        (HeapModel.withField (HeapModel.build h b).1 b k v)
        (PyVal.ref (HeapModel.build h b).2)
      = HeapModel.resolve (fuel + 1) (HeapModel.build h b).1
          (PyVal.ref (HeapModel.build h b).2) ∧
    HeapModel.resolve (fuel + 1)
        (HeapModel.withField (HeapModel.build h b).1
          (HeapModel.build h b).2 k2 v2)
        (PyVal.ref b)
      = HeapModel.resolve (fuel + 1) (HeapModel.build h b).1
          (PyVal.ref b) := by
  have hlt : HeapModel.heapGet (HeapModel.build h b).1 b
      = HeapModel.heapGet h b :=
    HeapModel.heapGet_append_lt h (HeapModel.heapGet h b) b hb
  have hobj : HeapModel.heapGet (HeapModel.build h b).1
      (HeapModel.build h b).2 = HeapModel.heapGet h b :=
    HeapModel.heapGet_append_self h (HeapModel.heapGet h b)
  have hsb : (HeapModel.build h b).2 ≠ b := by
    show h.length ≠ b
    omega
  constructor
  · simp only [HeapModel.withField]
    refine HeapModel.resolve_heapSet_untouched (HeapModel.build h b).1 b _
      (HeapModel.build h b).2 hsb fuel ?_
    rw [hobj]
    exact hnoB
  · simp only [HeapModel.withField]
    refine HeapModel.resolve_heapSet_untouched (HeapModel.build h b).1
      (HeapModel.build h b).2 _ b (Ne.symm hsb) fuel ?_
    rw [hlt]
    exact hnoS

/-- Witness for C1 (amended) on the fresh `request()` builder: rebinding
`method` on the builder after a snapshot, and adding a fresh top-level
field on the snapshot, each leave the other side unchanged. -/
theorem C1_top_level_independence_witness :
    HeapModel.resolve (4 + 1)
        (HeapModel.withField
          (HeapModel.build HeapModel.cxReq.1 HeapModel.cxReq.2).1
          HeapModel.cxReq.2 "method" (PyVal.str "GET"))
        (PyVal.ref (HeapModel.build HeapModel.cxReq.1 HeapModel.cxReq.2).2)
      = HeapModel.resolve (4 + 1)
          (HeapModel.build HeapModel.cxReq.1 HeapModel.cxReq.2).1
          (PyVal.ref
            (HeapModel.build HeapModel.cxReq.1 HeapModel.cxReq.2).2) ∧
    HeapModel.resolve (4 + 1)
        (HeapModel.withField
          (HeapModel.build HeapModel.cxReq.1 HeapModel.cxReq.2).1
          (HeapModel.build HeapModel.cxReq.1 HeapModel.cxReq.2).2
          "extra" (PyVal.int 1))
        (PyVal.ref HeapModel.cxReq.2)
      = HeapModel.resolve (4 + 1)
          (HeapModel.build HeapModel.cxReq.1 HeapModel.cxReq.2).1
          (PyVal.ref HeapModel.cxReq.2) :=
  C1_top_level_independence HeapModel.cxReq.1 HeapModel.cxReq.2
    "method" "extra" (PyVal.str "GET") (PyVal.int 1) 4
    (by decide) (by decide) (by decide)

/-- C1 counterexample: after `b = request(); s = b.build();
b.with_header("X-Custom", "1")`, the previously built snapshot `s` has
changed — its headers mapping gained the "X-Custom" entry — because
`build()`'s shallow copy shares the headers dict between `b` and `s`. -/
theorem C1_counterexample :
    vfield (HeapModel.resolve 5 HeapModel.cxSnap.1
        (PyVal.ref HeapModel.cxSnap.2)) "headers"
      = some (Value.dict [("Content-Type", Value.str "application/json")]) ∧
    vfield (HeapModel.resolve 5 HeapModel.cxMut
        (PyVal.ref HeapModel.cxSnap.2)) "headers"
      = some (Value.dict [("Content-Type", Value.str "application/json"),
                          ("X-Custom", Value.str "1")]) ∧
    HeapModel.resolve 5 HeapModel.cxMut (PyVal.ref HeapModel.cxSnap.2)
      ≠ HeapModel.resolve 5 HeapModel.cxSnap.1
          (PyVal.ref HeapModel.cxSnap.2) := by
  refine ⟨rfl, rfl, ?_⟩
  intro hEq
  have h1 : vfield (HeapModel.resolve 5 HeapModel.cxMut
      (PyVal.ref HeapModel.cxSnap.2)) "headers"
      = some (Value.dict [("Content-Type", Value.str "application/json"),
                          ("X-Custom", Value.str "1")]) := rfl
  rw [hEq] at h1
  have h2 : vfield (HeapModel.resolve 5 HeapModel.cxSnap.1
      (PyVal.ref HeapModel.cxSnap.2)) "headers"
      = some (Value.dict [("Content-Type", Value.str "application/json")])
      := rfl
  rw [h2] at h1
  simp at h1
